import Mathlib

/-!
Verification of the pw-workflow-runner polling and tunnel-lifecycle logic.

This file is a shallow embedding of the Python sources
`pw_workflow_runner/executor.py`, `pw_workflow_runner/client.py` and
`pw_workflow_runner/cli.py`.  Pure computations are translated to Lean
functions; the polling loops are translated to structural recursion over a
finite trace of environment observations (one `PollStep` per loop
iteration, carrying the wall-clock samples, the remote responses and the
`random.random()` draw the iteration consumes); raised exceptions become
explicit outcome constructors; OS process interaction is modelled by an
explicit process state and an `Except`-valued signal primitive.

Timestamps and durations are rationals (`ℚ`); Python string falsiness
(`None` and `""` are falsy) is modelled explicitly where the source relies
on it (`x or y` chains, `if workflow_name` guards).
-/

/-- Source `models.py` — `WorkflowType`: type of workflow execution. -/
inductive WorkflowType where
  | BATCH
  | SESSION
deriving DecidableEq, Repr

/-- Source `models.py` — `RunInfo`: job/run response from workflow submission or a
status check.  `variables` / `executed_jobs` (opaque JSON lists, unused by
the executor) are omitted. -/
structure RunInfo where
  id : String
  number : Int
  status : String
  workflow_name : String
  workflow_id : String
  workflow_display_name : String
  user : String
  created_at : ℚ
  completed_at : Option ℚ := none
deriving DecidableEq, Repr

/-- Reference to the run a session belongs to (`session.workflow_run` in
`client.py`; the remote system sometimes omits the workflow name). -/
structure WorkflowRunRef where
  number : Int
  workflow_name : Option String
deriving DecidableEq, Repr

/-- Model `SessionInfo`: session entry from `GET /api/sessions`.  The class is
imported by `client.py` from `models.py` but its declaration is absent from
the provided sources; the fields are reconstructed from every use site in
`client.py`, `executor.py` and `cli.py` and from the spec's SessionRecord. -/
structure SessionInfo where
  id : String
  status : Option String := none
  name : Option String := none
  slug : Option String := none
  type : Option String := none
  user : Option String := none
  url : Option String := none
  external_href : Option String := none
  domain_name : Option String := none
  remote_host : Option String := none
  remote_port : Option Int := none
  local_port : Option Int := none
  workflow_run : Option WorkflowRunRef := none
deriving DecidableEq, Repr

/-- Source `executor.py` — `ExecutionResult`: result of a workflow execution
(the `success` property is defined separately below). -/
structure ExecutionResult where
  workflow_name : String
  run_number : Int
  status : String
  workflow_type : WorkflowType
  started_at : ℚ
  completed_at : Option ℚ := none
  duration_seconds : Option ℚ := none
  error_message : Option String := none
  run_info : Option RunInfo := none
  session_url : Option String := none
deriving DecidableEq, Repr

/-- Python `str.lower()` (ASCII case folding of each character, as
`String.toLower` does, written with a structural `List.map` so concrete
instances evaluate). -/
def py_lower (s : String) : String := ⟨s.data.map Char.toLower⟩

/-- Source `executor.py` lines 42-51 — `ExecutionResult.success`: session
workflows are successful when running, batch workflows when completed. -/
def ExecutionResult.success (r : ExecutionResult) : Bool :=
  if r.workflow_type = WorkflowType.SESSION then
    py_lower r.status == "running"
  else
    py_lower r.status == "completed"

/-- Source `executor.py` line 55 — terminal statuses for batch workflows. -/
def BATCH_TERMINAL_STATUSES : List String := ["completed", "failed", "cancelled", "error"]

/-- Source `executor.py` line 58 — for session workflows, "running" is the target state. -/
def SESSION_READY_STATUS : String := "running"

/-- Source `executor.py` line 59 — failure statuses for session workflows. -/
def SESSION_TERMINAL_STATUSES : List String := ["failed", "cancelled", "error"]

/-- Source `executor.py` — the configuration state of `WorkflowExecutor.__init__`
(lines 65-86); the default field values are the keyword defaults of
`__init__`.  The `client` collaborator is passed to the poll functions as
an explicit response trace instead of being stored. -/
structure WorkflowExecutor where
  timeout : ℚ := 3600
  initial_poll_interval : ℚ := 5
  max_poll_interval : ℚ := 10
  backoff_factor : ℚ := 1.5
deriving DecidableEq, Repr

/-- An executor constructed without explicit configuration
(`WorkflowExecutor(client)`). -/
def default_executor : WorkflowExecutor := {}

/-- Source `executor.py` line 206 — `jitter = 1 + (random.random() - 0.5) * 0.2`,
as a function of the `random.random()` draw `r ∈ [0, 1)`. -/
def jitter_factor (r : ℚ) : ℚ := 1 + (r - 0.5) * 0.2

/-- Source `executor.py` line 207 —
`sleep_time = min(interval * jitter, self.max_poll_interval)`. -/
def next_sleep_time (ex : WorkflowExecutor) (interval r : ℚ) : ℚ :=
  min (interval * jitter_factor r) ex.max_poll_interval

/-- Source `executor.py` line 211 —
`interval = min(interval * self.backoff_factor, self.max_poll_interval)`. -/
def next_interval (ex : WorkflowExecutor) (interval : ℚ) : ℚ :=
  min (interval * ex.backoff_factor) ex.max_poll_interval

/-- The pre-jitter backoff basis: the value of the `interval` variable at
the n-th loop iteration (`interval = self.initial_poll_interval` at entry,
updated by `next_interval` each iteration). -/
def backoff_basis (ex : WorkflowExecutor) : Nat → ℚ
  | 0 => ex.initial_poll_interval
  | n + 1 => next_interval ex (backoff_basis ex n)

/-- Python `a or b` on two optional strings: `None` and `""` are falsy, so
a missing or empty left operand falls through to the right operand. -/
def pyOr (a b : Option String) : Option String :=
  match a with
  | some s => if s = "" then b else some s
  | none => b

/-- Python `a or b` where `a` is an optional string and `b` a plain string
(e.g. `session_info.status or "unknown"`). -/
def pyOrS (a : Option String) (b : String) : String :=
  match a with
  | some s => if s = "" then b else s
  | none => b

/-- Python truthiness of an optional string (`if workflow_name:`). -/
def py_truthy_str : Option String → Bool
  | none => false
  | some s => s ≠ ""

/-- Python truthiness of an optional integer (`if run_number:`). -/
def py_truthy_int : Option Int → Bool
  | none => false
  | some n => n ≠ 0

/-- Source `client.py` lines 129-157 — `PWClient.get_session_for_run`: first
session whose `workflow_run.number` equals the run number, where a session
reporting no workflow name matches on run number alone. -/
def get_session_for_run (sessions : List SessionInfo) (workflow_name : String)
    (run_number : Int) : Option SessionInfo :=
  sessions.find? (fun session =>
    match session.workflow_run with
    | none => false
    | some wr =>
        wr.number == run_number &&
          (wr.workflow_name == none || wr.workflow_name == some workflow_name))

/-- Outcome of one (possibly truncated) run of a polling loop.  `timeout`
is the `ExecutionTimeout` exception raised in `executor.py` lines 176-178 /
251-253; it structurally carries the workflow name, run number and elapsed
seconds interpolated into the exception message.  `exhausted` means the
supplied environment trace ended while the loop would still be polling. -/
inductive PollOutcome where
  | timeout (workflow_name : String) (run_number : Int) (elapsed : ℚ)
  | result (r : ExecutionResult)
  | exhausted
deriving DecidableEq, Repr

/-- Environment observations consumed by one iteration of
`_poll_until_complete`: `now` is the `datetime.utcnow()` sample at the top
of the loop, `run_info` the `get_run_status` response, `now2` the
`datetime.utcnow()` sample taken when building a terminal result, and
`rand` the `random.random()` draw for the jitter. -/
structure BatchPollStep where
  now : ℚ
  run_info : RunInfo
  now2 : ℚ
  rand : ℚ
deriving DecidableEq, Repr

/-- Source `executor.py` lines 148-211 — `WorkflowExecutor._poll_until_complete`,
run on a finite trace of iteration observations.  Returns the loop outcome
together with the list of `(run_info, elapsed)` arguments of the
`on_status` callback invocations, in invocation order.  `on_status` is
`true` when a callback was supplied (`if on_status and ...`). -/
def poll_until_complete (ex : WorkflowExecutor) (workflow_name : String)
    (run_number : Int) (started_at : ℚ) (on_status : Bool) :
    List BatchPollStep → ℚ → Option String → PollOutcome × List (RunInfo × ℚ)
  | [], _, _ => (PollOutcome.exhausted, [])
  | step :: rest, interval, last_status =>
    let elapsed := step.now - started_at
    if elapsed > ex.timeout then
      (PollOutcome.timeout workflow_name run_number elapsed, [])
    else
      let run_info := step.run_info
      let this_notifs : List (RunInfo × ℚ) :=
        if on_status ∧ some run_info.status ≠ last_status then [(run_info, elapsed)] else []
      if BATCH_TERMINAL_STATUSES.contains (py_lower run_info.status) then
        let completed_at := step.now2
        let duration := completed_at - started_at
        (PollOutcome.result
          { workflow_name := workflow_name
            run_number := run_number
            status := run_info.status
            workflow_type := WorkflowType.BATCH
            started_at := started_at
            completed_at := some completed_at
            duration_seconds := some duration
            error_message :=
              if py_lower run_info.status = "completed" then none else some run_info.status
            run_info := some run_info },
         this_notifs)
      else
        let _sleep_time := next_sleep_time ex interval step.rand
        let p := poll_until_complete ex workflow_name run_number started_at on_status
          rest (next_interval ex interval) (some run_info.status)
        (p.1, this_notifs ++ p.2)

/-- Environment observations consumed by one iteration of
`_poll_session_ready`: `now` is the `datetime.utcnow()` sample at the top
of the loop, `sessions` the `GET /api/sessions` response the
`get_session_for_run` call scans, `now2` the `datetime.utcnow()` sample
taken when building a returned result, and `rand` the `random.random()`
draw for the jitter. -/
structure SessionPollStep where
  now : ℚ
  sessions : List SessionInfo
  now2 : ℚ
  rand : ℚ
deriving DecidableEq, Repr

/-- Source `executor.py` lines 213-337 — `WorkflowExecutor._poll_session_ready`,
run on a finite trace of iteration observations.  `hget` models the HTTP
access (`httpx.get`) that is available to the method through its module
imports: `hget url` is the status code of a GET of `url`, `none` when the
request raises.  The loop body never performs an HTTP request, so `hget`
is only threaded through the recursion; `validate_session_url` below is
its sole consumer.  `session_name` is a parameter of the source method
that its body never reads.  Returns the loop outcome and the `on_status`
callback invocations in order. -/
def poll_session_ready (ex : WorkflowExecutor) (workflow_name : String)
    (run_number : Int) (started_at : ℚ) (session_name : Option String)
    (redirect_url : Option String) (on_status : Bool)
    (hget : String → Option Nat) :
    List SessionPollStep → ℚ → Option String → PollOutcome × List (RunInfo × ℚ)
  | [], _, _ => (PollOutcome.exhausted, [])
  | step :: rest, interval, last_status =>
    let elapsed := step.now - started_at
    if elapsed > ex.timeout then
      (PollOutcome.timeout workflow_name run_number elapsed, [])
    else
      match get_session_for_run step.sessions workflow_name run_number with
      | some session_info =>
        let current_status := pyOrS session_info.status "unknown"
        let cb_run_info : RunInfo :=
          { id := session_info.id
            number := run_number
            status := current_status
            workflow_name := workflow_name
            workflow_id := ""
            workflow_display_name := workflow_name
            user := pyOrS session_info.user ""
            created_at := started_at }
        let this_notifs : List (RunInfo × ℚ) :=
          if on_status ∧ some current_status ≠ last_status then
            [(cb_run_info, elapsed)]
          else []
        if SESSION_TERMINAL_STATUSES.contains (py_lower current_status) then
          let completed_at := step.now2
          let duration := completed_at - started_at
          (PollOutcome.result
            { workflow_name := workflow_name
              run_number := run_number
              status := current_status
              workflow_type := WorkflowType.SESSION
              started_at := started_at
              completed_at := some completed_at
              duration_seconds := some duration
              run_info := none
              error_message := some ("Session failed with status: " ++ current_status) },
           this_notifs)
        else
          let actual_session_url :=
            pyOr session_info.external_href (pyOr session_info.url redirect_url)
          if py_lower current_status = SESSION_READY_STATUS then
            let ready_at := step.now2
            let duration := ready_at - started_at
            (PollOutcome.result
              { workflow_name := workflow_name
                run_number := run_number
                status := current_status
                workflow_type := WorkflowType.SESSION
                started_at := started_at
                completed_at := some ready_at
                duration_seconds := some duration
                run_info := none
                session_url := actual_session_url },
             this_notifs)
          else
            let _sleep_time := next_sleep_time ex interval step.rand
            let p := poll_session_ready ex workflow_name run_number started_at
              session_name redirect_url on_status hget rest
              (next_interval ex interval) (some current_status)
            (p.1, this_notifs ++ p.2)
      | none =>
        let cb_run_info : RunInfo :=
          { id := ""
            number := run_number
            status := "starting"
            workflow_name := workflow_name
            workflow_id := ""
            workflow_display_name := workflow_name
            user := ""
            created_at := started_at }
        let this_notifs : List (RunInfo × ℚ) :=
          if on_status ∧ last_status ≠ some "starting" then
            [(cb_run_info, elapsed)]
          else []
        let _sleep_time := next_sleep_time ex interval step.rand
        let p := poll_session_ready ex workflow_name run_number started_at
          session_name redirect_url on_status hget rest
          (next_interval ex interval) (some "starting")
        (p.1, this_notifs ++ p.2)

/-- Source `executor.py` lines 339-354 — `WorkflowExecutor._validate_session_url`:
true when a GET of the URL returns status 200, false on any other status
or when the request raises.  This is the only consumer of the HTTP
capability `hget`; no poll path calls it. -/
def validate_session_url (hget : String → Option Nat) (url : String) : Bool :=
  match hget url with
  | some code => code == 200
  | none => false

/-- POSIX signals the teardown sequence can send to the tunnel process
group (`signal.SIGTERM`, `signal.SIGKILL`). -/
inductive Sig where
  | sigterm
  | sigkill
deriving DecidableEq, Repr

/-- State of the tunnel child process group when `cleanup` starts.
`alive` is whether the group still exists (so `os.getpgid`/`os.killpg`
succeed); `term_exit_delay` is how many seconds after SIGTERM the group
takes to exit (`none`: it ignores SIGTERM). -/
structure TunnelProc where
  alive : Bool
  term_exit_delay : Option ℚ := none
deriving DecidableEq, Repr

/-- Source `cli.py` line 504 — `tunnel_process.wait(timeout=5)`: the bounded
grace period between the graceful signal and the forced kill. -/
def tunnel_wait_grace : ℚ := 5

/-- Primitive `os.killpg(pgid, s)`: delivers `s` to the group when it exists, raises
`ProcessLookupError` when it is already gone. -/
def os_killpg (alive : Bool) (s : Sig) : Except String (List Sig) :=
  if alive then Except.ok [s] else Except.error "ProcessLookupError"

/-- Externally observable effects of one `cleanup` invocation: the signals
actually delivered to a live process group, the number of
`client.cancel_run` invocations, and whether a failure of the cancel call
was reported (printed) rather than propagated. -/
structure CleanupResult where
  signals : List Sig
  cancel_calls : Nat
  cancel_error_reported : Bool
deriving DecidableEq, Repr

/-- Source `cli.py` lines 494-519 — the `cleanup` closure of `_run_tunnel`.
`Except.error` would be an exception escaping `cleanup`; every OS-level
failure path of the source is wrapped in `try/except`, which the
translation mirrors by matching on the `Except` value of each primitive.
`cancel_fails` is whether the `client.cancel_run` call would raise. -/
def cleanup (cancel_workflow : Bool) (p : TunnelProc) (has_client : Bool)
    (workflow_name : Option String) (run_number : Option Int)
    (cancel_fails : Bool) : Except String CleanupResult :=
  -- try: os.killpg(os.getpgid(pid), SIGTERM)
  -- except (ProcessLookupError, OSError): pass  -- process already dead
  let sigs1 : List Sig :=
    match os_killpg p.alive Sig.sigterm with
    | Except.ok delivered => delivered
    | Except.error _ => []
  -- tunnel_process.wait(timeout=5): raises TimeoutExpired exactly when the
  -- group is still running 5 seconds after the graceful signal
  let timed_out : Bool :=
    p.alive &&
      (match p.term_exit_delay with
       | some d => decide (tunnel_wait_grace < d)
       | none => true)
  -- except subprocess.TimeoutExpired:
  --   try: os.killpg(os.getpgid(pid), SIGKILL)
  --   except (ProcessLookupError, OSError): pass
  let sigs2 : List Sig :=
    if timed_out then
      match os_killpg p.alive Sig.sigkill with
      | Except.ok delivered => delivered
      | Except.error _ => []
    else []
  -- if cancel_workflow and client and workflow_name and run_number:
  --   try: client.cancel_run(...) except Exception as e: print_error(...)
  if cancel_workflow && has_client && py_truthy_str workflow_name
      && py_truthy_int run_number then
    Except.ok
      { signals := sigs1 ++ sigs2
        cancel_calls := 1
        cancel_error_reported := cancel_fails }
  else
    Except.ok
      { signals := sigs1 ++ sigs2
        cancel_calls := 0
        cancel_error_reported := false }

/-- Source `cli.py` lines 530-535 — the auto-cancel wait loop, in whole seconds:
`while time.time() - start_time < cancel_after: if poll(): break; sleep(1)`.
`exited t` is whether `tunnel_process.poll()` reports an exited process
at `t` seconds after the loop started; the returned value is the elapsed
time at which the loop stops.  `remaining` is `cancel_after - t`. -/
def auto_cancel_loop (exited : Nat → Bool) : Nat → Nat → Nat
  | t, 0 => t
  | t, remaining + 1 => if exited t then t else auto_cancel_loop exited (t + 1) remaining

/-- Source `cli.py` lines 528-536 — the `cancel_after` branch of `_run_tunnel`:
run the once-per-second wait loop, then `cleanup(cancel_workflow=True)`.
Returns the elapsed seconds at which the wait stopped together with the
cleanup effects. -/
def run_tunnel_auto_cancel (cancel_after : Nat) (exited : Nat → Bool)
    (p : TunnelProc) (has_client : Bool) (workflow_name : Option String)
    (run_number : Option Int) (cancel_fails : Bool) :
    Nat × Except String CleanupResult :=
  (auto_cancel_loop exited 0 cancel_after,
   cleanup true p has_client workflow_name run_number cancel_fails)

/-- A concrete `RunInfo` used by witnesses and counterexamples. -/
def sample_run_info (status : String) : RunInfo :=
  { id := "r1"
    number := 1
    status := status
    workflow_name := "wf"
    workflow_id := "w1"
    workflow_display_name := "wf"
    user := "u"
    created_at := 0 }

/-- A concrete within-timeout terminal iteration: the remote reports
status `"Completed"` (mixed case) ten seconds in. -/
def c1_step : BatchPollStep :=
  { now := 10, run_info := sample_run_info "Completed", now2 := 11, rand := 0 }
/-- The result the batch poller builds for `c1_step`. -/
def c1_result : ExecutionResult :=
  { workflow_name := "wf"
    run_number := 1
    status := "Completed"
    workflow_type := WorkflowType.BATCH
    started_at := 0
    completed_at := some 11
    duration_seconds := some (11 - 0)
    error_message := none
    run_info := some (sample_run_info "Completed") }
/-- Two within-timeout non-terminal iterations whose statuses differ only
in letter case. -/
def c3_env : List BatchPollStep :=
  [{ now := 1, run_info := sample_run_info "Running", now2 := 1, rand := 0 },
   { now := 2, run_info := sample_run_info "running", now2 := 2, rand := 0 }]
/-- The minimal `RunInfo` the session poller builds for the status
callback when a matching session exists (`executor.py` lines 264-274). -/
def session_cb_run_info (workflow_name : String) (run_number : Int)
    (started_at : ℚ) (s : SessionInfo) : RunInfo :=
  { id := s.id
    number := run_number
    status := pyOrS s.status "unknown"
    workflow_name := workflow_name
    workflow_id := ""
    workflow_display_name := workflow_name
    user := pyOrS s.user ""
    created_at := started_at }
/-- The `RunInfo` the session poller builds for the status callback while
no matching session exists yet (`executor.py` lines 318-328). -/
def starting_run_info (workflow_name : String) (run_number : Int)
    (started_at : ℚ) : RunInfo :=
  { id := ""
    number := run_number
    status := "starting"
    workflow_name := workflow_name
    workflow_id := ""
    workflow_display_name := workflow_name
    user := ""
    created_at := started_at }
/-- An HTTP environment in which every request raises. -/
def no_http : String → Option Nat := fun _ => none
/-- A session entry that is running but exposes only the internal `url`
field (no `external_href`). -/
def c6_session : SessionInfo :=
  { id := "s1"
    status := some "running"
    url := some "https://internal/x"
    external_href := none
    workflow_run := some { number := 7, workflow_name := none } }
/-- A within-timeout session poll iteration observing `c6_session`. -/
def c6_step : SessionPollStep :=
  { now := 3, sessions := [c6_session], now2 := 4, rand := 0 }
/-- The result the session poller builds for `c6_step`. -/
def c6_result : ExecutionResult :=
  { workflow_name := "wf"
    run_number := 7
    status := "running"
    workflow_type := WorkflowType.SESSION
    started_at := 0
    completed_at := some 4
    duration_seconds := some (4 - 0)
    run_info := none
    session_url := some "https://internal/x" }
/-- A session entry that is running and exposes no URL at all. -/
def c10_session : SessionInfo :=
  { id := "s2"
    status := some "running"
    workflow_run := some { number := 7, workflow_name := none } }
/-- A within-timeout session poll iteration observing `c10_session`. -/
def c10_step : SessionPollStep :=
  { now := 2, sessions := [c10_session], now2 := 3, rand := 0 }
/-- The result the session poller builds for `c10_step`: no URL anywhere,
yet successful. -/
def c10_result : ExecutionResult :=
  { workflow_name := "wf"
    run_number := 7
    status := "running"
    workflow_type := WorkflowType.SESSION
    started_at := 0
    completed_at := some 3
    duration_seconds := some (3 - 0)
    run_info := none
    session_url := none }

/-- C5 counterexample: the claim says the default `maxPollIntervalSeconds`
is 60, but `WorkflowExecutor.__init__` defaults `max_poll_interval` to
10.0, so an executor constructed without explicit configuration has
maximum poll interval 10, not 60. -/
theorem C5_counterexample :
    default_executor.max_poll_interval = 10 ∧
      default_executor.max_poll_interval ≠ 60 := by
  constructor <;> decide

/-- C5 (amended): when the executor is constructed without explicit
configuration, the defaults are `timeout = 3600`,
`initial_poll_interval = 5`, `max_poll_interval = 10` and
`backoff_factor = 1.5`. -/
theorem C5_default_configuration :
    default_executor.timeout = 3600 ∧
      default_executor.initial_poll_interval = 5 ∧
      default_executor.max_poll_interval = 10 ∧
      default_executor.backoff_factor = 1.5 :=
  ⟨rfl, rfl, rfl, rfl⟩

/-- C2: on any batch polling iteration whose measured elapsed time exceeds
the configured timeout, `_poll_until_complete` raises `ExecutionTimeout`
carrying the workflow name, the run number and the elapsed seconds, emits
no further callback, and the right-hand side mentions neither the current
`run_info` nor the remaining trace — no further status poll happens after
the deadline is detected, and the call terminates without a result. -/
theorem C2_timeout_stops_polling (ex : WorkflowExecutor) (workflow_name : String)
    (run_number : Int) (started_at : ℚ) (on_status : Bool)
    (step : BatchPollStep) (rest : List BatchPollStep) (interval : ℚ)
    (last_status : Option String)
    (h : step.now - started_at > ex.timeout) :
    poll_until_complete ex workflow_name run_number started_at on_status
        (step :: rest) interval last_status =
      (PollOutcome.timeout workflow_name run_number (step.now - started_at), []) := by
  simp only [poll_until_complete]
  rw [if_pos h]

/-- C2 witness: with the default one-hour timeout, a poll iteration
starting 4000 seconds after submission raises the timeout. -/
theorem C2_witness :
    poll_until_complete default_executor "wf" 1 0 true
        [{ now := 4000, run_info := sample_run_info "running", now2 := 4001, rand := 0 }]
        5 none =
      (PollOutcome.timeout "wf" 1 (4000 - 0), []) :=
  C2_timeout_stops_polling default_executor "wf" 1 0 true
    { now := 4000, run_info := sample_run_info "running", now2 := 4001, rand := 0 }
    [] 5 none (by norm_num [default_executor])

/-- The pre-jitter basis is nonnegative whenever the configured intervals
are nonnegative and the backoff factor is at least 1. -/
theorem backoff_basis_nonneg (ex : WorkflowExecutor)
    (h1 : 0 ≤ ex.initial_poll_interval) (h2 : 1 ≤ ex.backoff_factor)
    (h3 : 0 ≤ ex.max_poll_interval) : ∀ n, 0 ≤ backoff_basis ex n
  | 0 => h1
  | n + 1 =>
    le_min
      (mul_nonneg (backoff_basis_nonneg ex h1 h2 h3 n) (zero_le_one.trans h2))
      h3

/-- C4: for every backoff iteration `n` (with nonnegative configured
intervals, a backoff factor ≥ 1, and a `random.random()` draw
`r ∈ [0, 1)`): the slept interval is at most `max_poll_interval`; the
jittered interval is within ±10% of the pre-jitter basis; the pre-jitter
basis does not decrease while it is below the ceiling; and each successive
basis is `min(currentInterval * backoffFactor, maxInterval)`. -/
theorem C4_backoff_bounds (ex : WorkflowExecutor)
    (h1 : 0 ≤ ex.initial_poll_interval) (h2 : 1 ≤ ex.backoff_factor)
    (h3 : 0 ≤ ex.max_poll_interval) (n : Nat) (r : ℚ)
    (hr0 : 0 ≤ r) (hr1 : r < 1) :
    next_sleep_time ex (backoff_basis ex n) r ≤ ex.max_poll_interval ∧
      |backoff_basis ex n * jitter_factor r - backoff_basis ex n| ≤
        backoff_basis ex n * (1 / 10) ∧
      (backoff_basis ex n < ex.max_poll_interval →
        backoff_basis ex n ≤ backoff_basis ex (n + 1)) ∧
      backoff_basis ex (n + 1) =
        min (backoff_basis ex n * ex.backoff_factor) ex.max_poll_interval := by
  have hb : 0 ≤ backoff_basis ex n := backoff_basis_nonneg ex h1 h2 h3 n
  refine ⟨min_le_right _ _, ?_, ?_, rfl⟩
  · have hrw : backoff_basis ex n * jitter_factor r - backoff_basis ex n =
        backoff_basis ex n * ((r - 0.5) * 0.2) := by
      simp only [jitter_factor]; ring
    rw [hrw, abs_mul, abs_of_nonneg hb]
    refine mul_le_mul_of_nonneg_left ?_ hb
    rw [abs_le]
    constructor <;> nlinarith
  · intro hlt
    refine le_min ?_ (le_of_lt hlt)
    nlinarith

/-- C4 witness: the bounds instantiated at the default configuration,
iteration 1, and the draw `r = 1/2`. -/
theorem C4_witness :
    next_sleep_time default_executor (backoff_basis default_executor 1) (1 / 2) ≤
        default_executor.max_poll_interval ∧
      |backoff_basis default_executor 1 * jitter_factor (1 / 2) -
          backoff_basis default_executor 1| ≤
        backoff_basis default_executor 1 * (1 / 10) ∧
      (backoff_basis default_executor 1 < default_executor.max_poll_interval →
        backoff_basis default_executor 1 ≤ backoff_basis default_executor 2) ∧
      backoff_basis default_executor 2 =
        min (backoff_basis default_executor 1 * default_executor.backoff_factor)
          default_executor.max_poll_interval :=
  C4_backoff_bounds default_executor (by norm_num [default_executor])
    (by norm_num [default_executor]) (by norm_num [default_executor]) 1 (1 / 2)
    (by norm_num) (by norm_num)

/-- C1: a batch polling run returns an `ExecutionResult` exactly when the
case-folded observed status is in the terminal set
`{completed, failed, cancelled, error}` — part one: every returned result
has a case-folded terminal status, and its `error_message` is `none` iff
the status case-folds to `"completed"`; part two: a within-timeout
iteration returns exactly on a case-folded terminal status (the returned
result keeps the raw status, so `"Completed"`, `"COMPLETED"` and
`"completed"` are all terminal), and on a non-terminal status the loop
continues into the next iteration instead of returning. -/
theorem C1_batch_terminal_iff (ex : WorkflowExecutor) (workflow_name : String)
    (run_number : Int) (started_at : ℚ) (on_status : Bool) :
    (∀ env interval last_status r notifs,
        poll_until_complete ex workflow_name run_number started_at on_status
            env interval last_status = (PollOutcome.result r, notifs) →
        BATCH_TERMINAL_STATUSES.contains (py_lower r.status) = true ∧
          (r.error_message = none ↔ py_lower r.status = "completed")) ∧
    (∀ (step : BatchPollStep) (rest : List BatchPollStep) (interval : ℚ)
        (last_status : Option String),
        ¬ step.now - started_at > ex.timeout →
        (BATCH_TERMINAL_STATUSES.contains (py_lower step.run_info.status) = true →
          poll_until_complete ex workflow_name run_number started_at on_status
              (step :: rest) interval last_status =
            (PollOutcome.result
              { workflow_name := workflow_name
                run_number := run_number
                status := step.run_info.status
                workflow_type := WorkflowType.BATCH
                started_at := started_at
                completed_at := some step.now2
                duration_seconds := some (step.now2 - started_at)
                error_message :=
                  if py_lower step.run_info.status = "completed" then none
                  else some step.run_info.status
                run_info := some step.run_info },
             if on_status ∧ some step.run_info.status ≠ last_status then
               [(step.run_info, step.now - started_at)]
             else [])) ∧
        (BATCH_TERMINAL_STATUSES.contains (py_lower step.run_info.status) = false →
          poll_until_complete ex workflow_name run_number started_at on_status
              (step :: rest) interval last_status =
            ((poll_until_complete ex workflow_name run_number started_at on_status
                rest (next_interval ex interval) (some step.run_info.status)).1,
             (if on_status ∧ some step.run_info.status ≠ last_status then
                [(step.run_info, step.now - started_at)]
              else []) ++
               (poll_until_complete ex workflow_name run_number started_at on_status
                 rest (next_interval ex interval) (some step.run_info.status)).2))) := by
  constructor
  · intro env
    induction env with
    | nil =>
      intro interval last_status r notifs h
      simp [poll_until_complete] at h
    | cons step rest ih =>
      intro interval last_status r notifs h
      simp only [poll_until_complete] at h
      by_cases ht : step.now - started_at > ex.timeout
      · rw [if_pos ht] at h
        simp at h
      · rw [if_neg ht] at h
        by_cases hterm :
            BATCH_TERMINAL_STATUSES.contains (py_lower step.run_info.status) = true
        · rw [if_pos hterm] at h
          rw [Prod.mk.injEq] at h
          obtain ⟨h1, -⟩ := h
          injection h1 with hr
          subst hr
          refine ⟨hterm, ?_⟩
          by_cases hc : py_lower step.run_info.status = "completed"
          · simp [hc]
          · simp [hc]
        · rw [if_neg hterm] at h
          rw [Prod.mk.injEq] at h
          obtain ⟨h1, -⟩ := h
          exact ih (next_interval ex interval) (some step.run_info.status) r
            (poll_until_complete ex workflow_name run_number started_at on_status
              rest (next_interval ex interval) (some step.run_info.status)).2
            (by rw [← h1])
  · intro step rest interval last_status ht
    constructor
    · intro hterm
      simp only [poll_until_complete]
      rw [if_neg ht, if_pos hterm]
    · intro hterm
      simp only [poll_until_complete]
      rw [if_neg ht, if_neg (by rw [hterm]; exact Bool.false_ne_true)]

/-- C1 witness: the mixed-case status `"Completed"` is terminal for the
default executor — the poller returns at once, with `error_message = none`.
-/
theorem C1_witness :
    poll_until_complete default_executor "wf" 1 0 true [c1_step] 5 none =
        (PollOutcome.result c1_result, [(sample_run_info "Completed", 10 - 0)]) ∧
      BATCH_TERMINAL_STATUSES.contains (py_lower c1_result.status) = true ∧
        (c1_result.error_message = none ↔ py_lower c1_result.status = "completed") := by
  have h2 :=
    ((C1_batch_terminal_iff default_executor "wf" 1 0 true).2 c1_step [] 5 none
      (by norm_num [c1_step, default_executor])).1 (by decide)
  exact ⟨h2,
    (C1_batch_terminal_iff default_executor "wf" 1 0 true).1 [c1_step] 5 none
      c1_result [(sample_run_info "Completed", 10 - 0)] h2⟩


/-- One-step equation of the batch loop: deadline exceeded. -/
theorem poll_step_timeout (ex : WorkflowExecutor) (workflow_name : String)
    (run_number : Int) (started_at : ℚ) (on_status : Bool)
    (step : BatchPollStep) (rest : List BatchPollStep) (interval : ℚ)
    (last_status : Option String)
    (ht : step.now - started_at > ex.timeout) :
    poll_until_complete ex workflow_name run_number started_at on_status
        (step :: rest) interval last_status =
      (PollOutcome.timeout workflow_name run_number (step.now - started_at), []) := by
  simp only [poll_until_complete]
  rw [if_pos ht]

/-- One-step equation of the batch loop: within the deadline, terminal
status observed. -/
theorem poll_step_terminal (ex : WorkflowExecutor) (workflow_name : String)
    (run_number : Int) (started_at : ℚ) (on_status : Bool)
    (step : BatchPollStep) (rest : List BatchPollStep) (interval : ℚ)
    (last_status : Option String)
    (ht : ¬ step.now - started_at > ex.timeout)
    (hterm : BATCH_TERMINAL_STATUSES.contains (py_lower step.run_info.status) = true) :
    poll_until_complete ex workflow_name run_number started_at on_status
        (step :: rest) interval last_status =
      (PollOutcome.result
        { workflow_name := workflow_name
          run_number := run_number
          status := step.run_info.status
          workflow_type := WorkflowType.BATCH
          started_at := started_at
          completed_at := some step.now2
          duration_seconds := some (step.now2 - started_at)
          error_message :=
            if py_lower step.run_info.status = "completed" then none
            else some step.run_info.status
          run_info := some step.run_info },
       if on_status ∧ some step.run_info.status ≠ last_status then
         [(step.run_info, step.now - started_at)]
       else []) := by
  simp only [poll_until_complete]
  rw [if_neg ht, if_pos hterm]

/-- One-step equation of the batch loop: within the deadline,
non-terminal status observed — the loop recurses. -/
theorem poll_step_cont (ex : WorkflowExecutor) (workflow_name : String)
    (run_number : Int) (started_at : ℚ) (on_status : Bool)
    (step : BatchPollStep) (rest : List BatchPollStep) (interval : ℚ)
    (last_status : Option String)
    (ht : ¬ step.now - started_at > ex.timeout)
    (hterm : BATCH_TERMINAL_STATUSES.contains (py_lower step.run_info.status) = false) :
    poll_until_complete ex workflow_name run_number started_at on_status
        (step :: rest) interval last_status =
      ((poll_until_complete ex workflow_name run_number started_at on_status
          rest (next_interval ex interval) (some step.run_info.status)).1,
       (if on_status ∧ some step.run_info.status ≠ last_status then
          [(step.run_info, step.now - started_at)]
        else []) ++
         (poll_until_complete ex workflow_name run_number started_at on_status
           rest (next_interval ex interval) (some step.run_info.status)).2) := by
  simp only [poll_until_complete]
  rw [if_neg ht, if_neg (by rw [hterm]; exact Bool.false_ne_true)]

/-- With a notifier supplied, the first notification a batch poll run
emits is always for a status differing from the inherited
`last_status`. -/
theorem poll_notifs_head_ne (ex : WorkflowExecutor) (workflow_name : String)
    (run_number : Int) (started_at : ℚ) :
    ∀ (env : List BatchPollStep) (interval : ℚ) (last_status : Option String)
      (p : RunInfo × ℚ),
      ((poll_until_complete ex workflow_name run_number started_at true
          env interval last_status).2).head? = some p →
      some p.1.status ≠ last_status := by
  intro env
  induction env with
  | nil =>
    intro interval last_status p h
    simp [poll_until_complete] at h
  | cons step rest ih =>
    intro interval last_status p h
    by_cases ht : step.now - started_at > ex.timeout
    · rw [poll_step_timeout ex workflow_name run_number started_at true step rest
        interval last_status ht] at h
      simp at h
    · by_cases hne : some step.run_info.status ≠ last_status
      · by_cases hterm :
            BATCH_TERMINAL_STATUSES.contains (py_lower step.run_info.status) = true
        · rw [poll_step_terminal ex workflow_name run_number started_at true step rest
            interval last_status ht hterm] at h
          simp [hne] at h
          subst h
          exact hne
        · rw [poll_step_cont ex workflow_name run_number started_at true step rest
            interval last_status ht (by simpa using hterm)] at h
          simp [hne] at h
          subst h
          exact hne
      · push_neg at hne
        by_cases hterm :
            BATCH_TERMINAL_STATUSES.contains (py_lower step.run_info.status) = true
        · rw [poll_step_terminal ex workflow_name run_number started_at true step rest
            interval last_status ht hterm] at h
          simp [hne] at h
        · rw [poll_step_cont ex workflow_name run_number started_at true step rest
            interval last_status ht (by simpa using hterm)] at h
          simp [hne] at h
          exact ih (next_interval ex interval) last_status p h

/-- With a notifier supplied, adjacent notifications of a batch poll run
always carry different (raw) statuses: consecutive duplicate status ticks
are suppressed. -/
theorem poll_notifs_chain (ex : WorkflowExecutor) (workflow_name : String)
    (run_number : Int) (started_at : ℚ) :
    ∀ (env : List BatchPollStep) (interval : ℚ) (last_status : Option String),
      List.Chain' (fun a b => a.1.status ≠ b.1.status)
        ((poll_until_complete ex workflow_name run_number started_at true
          env interval last_status).2) := by
  intro env
  induction env with
  | nil =>
    intro interval last_status
    simp [poll_until_complete]
  | cons step rest ih =>
    intro interval last_status
    by_cases ht : step.now - started_at > ex.timeout
    · rw [poll_step_timeout ex workflow_name run_number started_at true step rest
        interval last_status ht]
      simp
    · by_cases hterm :
          BATCH_TERMINAL_STATUSES.contains (py_lower step.run_info.status) = true
      · rw [poll_step_terminal ex workflow_name run_number started_at true step rest
          interval last_status ht hterm]
        split <;> split <;> simp
      · rw [poll_step_cont ex workflow_name run_number started_at true step rest
          interval last_status ht (by simpa using hterm)]
        split
        · simp only [List.singleton_append]
          rw [List.chain'_cons']
          refine ⟨?_, ih (next_interval ex interval) (some step.run_info.status)⟩
          intro y hy
          have h2 := poll_notifs_head_ne ex workflow_name run_number started_at rest
            (next_interval ex interval) (some step.run_info.status) y (Option.mem_def.mp hy)
          exact fun hEq => h2 (by rw [hEq])
        · simpa using ih (next_interval ex interval) (some step.run_info.status)

/-- The notification statuses of a batch poll run are an order-preserving
subsequence of the observed statuses: notifications fire in observation
order. -/
theorem poll_notifs_sublist (ex : WorkflowExecutor) (workflow_name : String)
    (run_number : Int) (started_at : ℚ) (on_status : Bool) :
    ∀ (env : List BatchPollStep) (interval : ℚ) (last_status : Option String),
      List.Sublist
        (((poll_until_complete ex workflow_name run_number started_at on_status
            env interval last_status).2).map (fun p => p.1.status))
        (env.map (fun step => step.run_info.status)) := by
  intro env
  induction env with
  | nil =>
    intro interval last_status
    simp [poll_until_complete]
  | cons step rest ih =>
    intro interval last_status
    by_cases ht : step.now - started_at > ex.timeout
    · rw [poll_step_timeout ex workflow_name run_number started_at on_status step rest
        interval last_status ht]
      simp
    · by_cases hterm :
          BATCH_TERMINAL_STATUSES.contains (py_lower step.run_info.status) = true
      · rw [poll_step_terminal ex workflow_name run_number started_at on_status step rest
          interval last_status ht hterm]
        split <;> split <;> simp
      · rw [poll_step_cont ex workflow_name run_number started_at on_status step rest
          interval last_status ht (by simpa using hterm)]
        split
        · simp only [List.singleton_append, List.map_cons]
          exact List.Sublist.cons₂ _ (ih (next_interval ex interval) (some step.run_info.status))
        · simp only [List.nil_append, List.map_cons]
          exact List.Sublist.cons _ (ih (next_interval ex interval) (some step.run_info.status))

/-- C3 counterexample: the claim says the notifier is invoked at most once
per distinct status value under a case-folded comparison, but
`_poll_until_complete` compares raw strings (`run_info.status !=
last_status`): observing `"Running"` then `"running"` fires the notifier
twice although the two statuses case-fold to the same value. -/
theorem C3_counterexample :
    ((poll_until_complete default_executor "wf" 1 0 true c3_env 5 none).2.map
        (fun p => p.1.status)) = ["Running", "running"] ∧
      py_lower "Running" = py_lower "running" := by
  have hR : py_lower "Running" = "running" := by decide
  have hr : py_lower "running" = "running" := by decide
  have hc : BATCH_TERMINAL_STATUSES.contains "running" = false := by decide
  have hmem : ¬ ("running" ∈ BATCH_TERMINAL_STATUSES) := by decide
  have hsr : ("running" : String) ≠ "Running" := by decide
  have hsc : ("running" : String) ≠ "completed" := by decide
  have hon : (some "Running" : Option String) ≠ none := by decide
  refine ⟨?_, by decide⟩
  norm_num [c3_env, poll_until_complete, sample_run_info, default_executor,
    hR, hr, hc, hmem, hsr, hsc, hon, next_interval, next_sleep_time, jitter_factor]

/-- C3 (amended): with a caller-supplied notifier, the batch poller
invokes it exactly when the raw status string differs from the
immediately preceding observed status (a case-sensitive comparison) —
hence adjacent notifications always carry different raw statuses,
notifications arrive in observation order (an order-preserving
subsequence of the observed statuses), and the very first observed status
is always notified, even when it is already terminal. -/
theorem C3_notifier_per_raw_change (ex : WorkflowExecutor)
    (workflow_name : String) (run_number : Int) (started_at : ℚ) :
    (∀ (env : List BatchPollStep) (interval : ℚ) (last_status : Option String),
        List.Chain' (fun a b => a.1.status ≠ b.1.status)
          ((poll_until_complete ex workflow_name run_number started_at true
            env interval last_status).2)) ∧
    (∀ (env : List BatchPollStep) (interval : ℚ) (last_status : Option String),
        List.Sublist
          (((poll_until_complete ex workflow_name run_number started_at true
              env interval last_status).2).map (fun p => p.1.status))
          (env.map (fun step => step.run_info.status))) ∧
    (∀ (step : BatchPollStep) (rest : List BatchPollStep) (interval : ℚ),
        ¬ step.now - started_at > ex.timeout →
        ((poll_until_complete ex workflow_name run_number started_at true
            (step :: rest) interval none).2).head? =
          some (step.run_info, step.now - started_at)) := by
  refine ⟨poll_notifs_chain ex workflow_name run_number started_at,
    poll_notifs_sublist ex workflow_name run_number started_at true, ?_⟩
  intro step rest interval ht
  by_cases hterm :
      BATCH_TERMINAL_STATUSES.contains (py_lower step.run_info.status) = true
  · rw [poll_step_terminal ex workflow_name run_number started_at true step rest
      interval none ht hterm]
    split <;> split
    · simp
    · rename_i hcond
      exact absurd ⟨rfl, by simp⟩ hcond
    · simp
    · rename_i hcond
      exact absurd ⟨rfl, by simp⟩ hcond
  · rw [poll_step_cont ex workflow_name run_number started_at true step rest
      interval none ht (by simpa using hterm)]
    split
    · simp
    · rename_i hcond
      exact absurd ⟨rfl, by simp⟩ hcond

/-- C3 witness: the amended properties evaluated on the concrete
mixed-case trace, plus the first-status notification for a concrete first
iteration. -/
theorem C3_witness :
    List.Chain' (fun a b => a.1.status ≠ b.1.status)
        ((poll_until_complete default_executor "wf" 1 0 true c3_env 5 none).2) ∧
      List.Sublist
        (((poll_until_complete default_executor "wf" 1 0 true c3_env 5 none).2).map
          (fun p => p.1.status))
        (c3_env.map (fun step => step.run_info.status)) ∧
      ((poll_until_complete default_executor "wf" 1 0 true
          ({ now := 1, run_info := sample_run_info "Running", now2 := 1, rand := 0 } ::
            []) 5 none).2).head? =
        some (sample_run_info "Running", 1 - 0) := by
  obtain ⟨h1, h2, h3⟩ := C3_notifier_per_raw_change default_executor "wf" 1 0
  exact ⟨h1 c3_env 5 none, h2 c3_env 5 none,
    h3 { now := 1, run_info := sample_run_info "Running", now2 := 1, rand := 0 } [] 5
      (by norm_num [default_executor])⟩

/-- One-step equation of the session loop: deadline exceeded. -/
theorem spoll_step_timeout (ex : WorkflowExecutor) (workflow_name : String)
    (run_number : Int) (started_at : ℚ) (session_name redirect_url : Option String)
    (on_status : Bool) (hget : String → Option Nat)
    (step : SessionPollStep) (rest : List SessionPollStep) (interval : ℚ)
    (last_status : Option String)
    (ht : step.now - started_at > ex.timeout) :
    poll_session_ready ex workflow_name run_number started_at session_name
        redirect_url on_status hget (step :: rest) interval last_status =
      (PollOutcome.timeout workflow_name run_number (step.now - started_at), []) := by
  simp only [poll_session_ready]
  rw [if_pos ht]

/-- One-step equation of the session loop: within the deadline, no session
matches the run yet — the implicit status is `"starting"`, the notifier
fires unless the previous status was already `"starting"`, and the loop
recurses. -/
theorem spoll_step_no_session (ex : WorkflowExecutor) (workflow_name : String)
    (run_number : Int) (started_at : ℚ) (session_name redirect_url : Option String)
    (on_status : Bool) (hget : String → Option Nat)
    (step : SessionPollStep) (rest : List SessionPollStep) (interval : ℚ)
    (last_status : Option String)
    (hs : get_session_for_run step.sessions workflow_name run_number = none)
    (ht : ¬ step.now - started_at > ex.timeout) :
    poll_session_ready ex workflow_name run_number started_at session_name
        redirect_url on_status hget (step :: rest) interval last_status =
      ((poll_session_ready ex workflow_name run_number started_at session_name
          redirect_url on_status hget rest (next_interval ex interval)
          (some "starting")).1,
       (if on_status ∧ last_status ≠ some "starting" then
          [(starting_run_info workflow_name run_number started_at,
            step.now - started_at)]
        else []) ++
         (poll_session_ready ex workflow_name run_number started_at session_name
           redirect_url on_status hget rest (next_interval ex interval)
           (some "starting")).2) := by
  simp only [poll_session_ready]
  rw [if_neg ht]
  simp only [hs]
  rfl

/-- One-step equation of the session loop: within the deadline, a matching
session reports a failure status — the loop returns a non-success result
with the failure recorded in `error_message`. -/
theorem spoll_step_fail (ex : WorkflowExecutor) (workflow_name : String)
    (run_number : Int) (started_at : ℚ) (session_name redirect_url : Option String)
    (on_status : Bool) (hget : String → Option Nat)
    (step : SessionPollStep) (rest : List SessionPollStep) (interval : ℚ)
    (last_status : Option String) (s : SessionInfo)
    (hs : get_session_for_run step.sessions workflow_name run_number = some s)
    (ht : ¬ step.now - started_at > ex.timeout)
    (hfail : SESSION_TERMINAL_STATUSES.contains
      (py_lower (pyOrS s.status "unknown")) = true) :
    poll_session_ready ex workflow_name run_number started_at session_name
        redirect_url on_status hget (step :: rest) interval last_status =
      (PollOutcome.result
        { workflow_name := workflow_name
          run_number := run_number
          status := pyOrS s.status "unknown"
          workflow_type := WorkflowType.SESSION
          started_at := started_at
          completed_at := some step.now2
          duration_seconds := some (step.now2 - started_at)
          run_info := none
          error_message :=
            some ("Session failed with status: " ++ pyOrS s.status "unknown") },
       if on_status ∧ some (pyOrS s.status "unknown") ≠ last_status then
         [(session_cb_run_info workflow_name run_number started_at s,
           step.now - started_at)]
       else []) := by
  simp only [poll_session_ready]
  rw [if_neg ht]
  simp only [hs]
  rw [if_pos hfail]
  rfl

/-- One-step equation of the session loop: within the deadline, a matching
session case-folds to the ready status `"running"` — the loop returns a
result whose `session_url` is `external_href or url or redirect_url`
(Python falsiness). -/
theorem spoll_step_ready (ex : WorkflowExecutor) (workflow_name : String)
    (run_number : Int) (started_at : ℚ) (session_name redirect_url : Option String)
    (on_status : Bool) (hget : String → Option Nat)
    (step : SessionPollStep) (rest : List SessionPollStep) (interval : ℚ)
    (last_status : Option String) (s : SessionInfo)
    (hs : get_session_for_run step.sessions workflow_name run_number = some s)
    (ht : ¬ step.now - started_at > ex.timeout)
    (hfail : SESSION_TERMINAL_STATUSES.contains
      (py_lower (pyOrS s.status "unknown")) = false)
    (hready : py_lower (pyOrS s.status "unknown") = SESSION_READY_STATUS) :
    poll_session_ready ex workflow_name run_number started_at session_name
        redirect_url on_status hget (step :: rest) interval last_status =
      (PollOutcome.result
        { workflow_name := workflow_name
          run_number := run_number
          status := pyOrS s.status "unknown"
          workflow_type := WorkflowType.SESSION
          started_at := started_at
          completed_at := some step.now2
          duration_seconds := some (step.now2 - started_at)
          run_info := none
          session_url := pyOr s.external_href (pyOr s.url redirect_url) },
       if on_status ∧ some (pyOrS s.status "unknown") ≠ last_status then
         [(session_cb_run_info workflow_name run_number started_at s,
           step.now - started_at)]
       else []) := by
  simp only [poll_session_ready]
  rw [if_neg ht]
  simp only [hs]
  rw [if_neg (by rw [hfail]; exact Bool.false_ne_true), if_pos hready]
  rfl

/-- One-step equation of the session loop: within the deadline, a matching
session is neither failed nor ready — the loop recurses. -/
theorem spoll_step_cont (ex : WorkflowExecutor) (workflow_name : String)
    (run_number : Int) (started_at : ℚ) (session_name redirect_url : Option String)
    (on_status : Bool) (hget : String → Option Nat)
    (step : SessionPollStep) (rest : List SessionPollStep) (interval : ℚ)
    (last_status : Option String) (s : SessionInfo)
    (hs : get_session_for_run step.sessions workflow_name run_number = some s)
    (ht : ¬ step.now - started_at > ex.timeout)
    (hfail : SESSION_TERMINAL_STATUSES.contains
      (py_lower (pyOrS s.status "unknown")) = false)
    (hready : ¬ py_lower (pyOrS s.status "unknown") = SESSION_READY_STATUS) :
    poll_session_ready ex workflow_name run_number started_at session_name
        redirect_url on_status hget (step :: rest) interval last_status =
      ((poll_session_ready ex workflow_name run_number started_at session_name
          redirect_url on_status hget rest (next_interval ex interval)
          (some (pyOrS s.status "unknown"))).1,
       (if on_status ∧ some (pyOrS s.status "unknown") ≠ last_status then
          [(session_cb_run_info workflow_name run_number started_at s,
            step.now - started_at)]
        else []) ++
         (poll_session_ready ex workflow_name run_number started_at session_name
           redirect_url on_status hget rest (next_interval ex interval)
           (some (pyOrS s.status "unknown"))).2) := by
  simp only [poll_session_ready]
  rw [if_neg ht]
  simp only [hs]
  rw [if_neg (by rw [hfail]; exact Bool.false_ne_true), if_neg hready]
  rfl

/-- A session failure status never case-folds to the ready status. -/
theorem session_terminal_ne_running (x : String)
    (h : SESSION_TERMINAL_STATUSES.contains x = true) : x ≠ "running" := by
  intro hx
  subst hx
  revert h
  decide

/-- Every result returned by the session poller is a session-workflow
result. -/
theorem spoll_result_type (ex : WorkflowExecutor) (workflow_name : String)
    (run_number : Int) (started_at : ℚ) (session_name redirect_url : Option String)
    (on_status : Bool) (hget : String → Option Nat) :
    ∀ (env : List SessionPollStep) (interval : ℚ) (last_status : Option String)
      (r : ExecutionResult) (notifs : List (RunInfo × ℚ)),
      poll_session_ready ex workflow_name run_number started_at session_name
          redirect_url on_status hget env interval last_status =
        (PollOutcome.result r, notifs) →
      r.workflow_type = WorkflowType.SESSION := by
  intro env
  induction env with
  | nil =>
    intro interval last_status r notifs h
    simp [poll_session_ready] at h
  | cons step rest ih =>
    intro interval last_status r notifs h
    by_cases ht : step.now - started_at > ex.timeout
    · rw [spoll_step_timeout ex workflow_name run_number started_at session_name
        redirect_url on_status hget step rest interval last_status ht] at h
      simp at h
    · cases hs : get_session_for_run step.sessions workflow_name run_number with
      | none =>
        rw [spoll_step_no_session ex workflow_name run_number started_at session_name
          redirect_url on_status hget step rest interval last_status hs ht] at h
        rw [Prod.mk.injEq] at h
        obtain ⟨h1, -⟩ := h
        exact ih (next_interval ex interval) (some "starting") r
          (poll_session_ready ex workflow_name run_number started_at session_name
            redirect_url on_status hget rest (next_interval ex interval)
            (some "starting")).2 (by rw [← h1])
      | some s =>
        by_cases hfail : SESSION_TERMINAL_STATUSES.contains
            (py_lower (pyOrS s.status "unknown")) = true
        · rw [spoll_step_fail ex workflow_name run_number started_at session_name
            redirect_url on_status hget step rest interval last_status s hs ht hfail] at h
          rw [Prod.mk.injEq] at h
          obtain ⟨h1, -⟩ := h
          injection h1 with hr
          subst hr
          rfl
        · by_cases hready : py_lower (pyOrS s.status "unknown") = SESSION_READY_STATUS
          · rw [spoll_step_ready ex workflow_name run_number started_at session_name
              redirect_url on_status hget step rest interval last_status s hs ht
              (by simpa using hfail) hready] at h
            rw [Prod.mk.injEq] at h
            obtain ⟨h1, -⟩ := h
            injection h1 with hr
            subst hr
            rfl
          · rw [spoll_step_cont ex workflow_name run_number started_at session_name
              redirect_url on_status hget step rest interval last_status s hs ht
              (by simpa using hfail) hready] at h
            rw [Prod.mk.injEq] at h
            obtain ⟨h1, -⟩ := h
            exact ih (next_interval ex interval) (some (pyOrS s.status "unknown")) r
              (poll_session_ready ex workflow_name run_number started_at session_name
                redirect_url on_status hget rest (next_interval ex interval)
                (some (pyOrS s.status "unknown"))).2 (by rw [← h1])

/-- The session poller never consults the HTTP capability: its outcome and
notifications are unchanged under any two HTTP environments. -/
theorem spoll_hget_independent (ex : WorkflowExecutor) (workflow_name : String)
    (run_number : Int) (started_at : ℚ) (session_name redirect_url : Option String)
    (on_status : Bool) (hget hget' : String → Option Nat) :
    ∀ (env : List SessionPollStep) (interval : ℚ) (last_status : Option String),
      poll_session_ready ex workflow_name run_number started_at session_name
          redirect_url on_status hget env interval last_status =
        poll_session_ready ex workflow_name run_number started_at session_name
          redirect_url on_status hget' env interval last_status := by
  intro env
  induction env with
  | nil =>
    intro interval last_status
    simp [poll_session_ready]
  | cons step rest ih =>
    intro interval last_status
    by_cases ht : step.now - started_at > ex.timeout
    · rw [spoll_step_timeout ex workflow_name run_number started_at session_name
        redirect_url on_status hget step rest interval last_status ht,
        spoll_step_timeout ex workflow_name run_number started_at session_name
        redirect_url on_status hget' step rest interval last_status ht]
    · cases hs : get_session_for_run step.sessions workflow_name run_number with
      | none =>
        rw [spoll_step_no_session ex workflow_name run_number started_at session_name
          redirect_url on_status hget step rest interval last_status hs ht,
          spoll_step_no_session ex workflow_name run_number started_at session_name
          redirect_url on_status hget' step rest interval last_status hs ht,
          ih (next_interval ex interval) (some "starting")]
      | some s =>
        by_cases hfail : SESSION_TERMINAL_STATUSES.contains
            (py_lower (pyOrS s.status "unknown")) = true
        · rw [spoll_step_fail ex workflow_name run_number started_at session_name
            redirect_url on_status hget step rest interval last_status s hs ht hfail,
            spoll_step_fail ex workflow_name run_number started_at session_name
            redirect_url on_status hget' step rest interval last_status s hs ht hfail]
        · by_cases hready : py_lower (pyOrS s.status "unknown") = SESSION_READY_STATUS
          · rw [spoll_step_ready ex workflow_name run_number started_at session_name
              redirect_url on_status hget step rest interval last_status s hs ht
              (by simpa using hfail) hready,
              spoll_step_ready ex workflow_name run_number started_at session_name
              redirect_url on_status hget' step rest interval last_status s hs ht
              (by simpa using hfail) hready]
          · rw [spoll_step_cont ex workflow_name run_number started_at session_name
              redirect_url on_status hget step rest interval last_status s hs ht
              (by simpa using hfail) hready,
              spoll_step_cont ex workflow_name run_number started_at session_name
              redirect_url on_status hget' step rest interval last_status s hs ht
              (by simpa using hfail) hready,
              ih (next_interval ex interval) (some (pyOrS s.status "unknown"))]

/-- C6 counterexample: the claim says the session URL falls back to the
submission redirect URL when the registry entry's external endpoint is
absent, but `_poll_session_ready` (executor.py line 296) first falls back
to the entry's internal `url` field: with `external_href = None`,
`url = "https://internal/x"` and a redirect URL present, the returned
`session_url` is the internal URL, not the redirect URL. -/
theorem C6_counterexample :
    (poll_session_ready default_executor "wf" 7 0 none (some "https://redirect/x")
          false no_http [c6_step] 5 none).1 =
        PollOutcome.result c6_result ∧
      c6_session.external_href = none ∧
      c6_result.session_url ≠ some "https://redirect/x" := by
  refine ⟨?_, rfl, by decide⟩
  rw [spoll_step_ready default_executor "wf" 7 0 none (some "https://redirect/x")
    false no_http c6_step [] 5 none c6_session (by decide)
    (by norm_num [c6_step, default_executor]) (by decide) (by decide)]
  rfl

/-- C6 (amended): a session polling run returns a success result exactly
when the matched session's status case-folds to `"running"` — every
returned result satisfies `success = true` iff its status case-folds to
`"running"`, and a within-timeout iteration whose matched session
case-folds to `"running"` returns at once; the result's `session_url` is
taken preferentially from the session entry's `external_href`, then from
the entry's internal `url` field, and only then from the redirect URL
returned at submission time (Python falsiness: absent or empty fields fall
through). -/
theorem C6_session_ready_url (ex : WorkflowExecutor) (workflow_name : String)
    (run_number : Int) (started_at : ℚ) (session_name redirect_url : Option String)
    (on_status : Bool) (hget : String → Option Nat) :
    (∀ (env : List SessionPollStep) (interval : ℚ) (last_status : Option String)
        (r : ExecutionResult) (notifs : List (RunInfo × ℚ)),
        poll_session_ready ex workflow_name run_number started_at session_name
            redirect_url on_status hget env interval last_status =
          (PollOutcome.result r, notifs) →
        (r.success = true ↔ py_lower r.status = "running")) ∧
    (∀ (step : SessionPollStep) (rest : List SessionPollStep) (interval : ℚ)
        (last_status : Option String) (s : SessionInfo),
        get_session_for_run step.sessions workflow_name run_number = some s →
        ¬ step.now - started_at > ex.timeout →
        py_lower (pyOrS s.status "unknown") = "running" →
        poll_session_ready ex workflow_name run_number started_at session_name
            redirect_url on_status hget (step :: rest) interval last_status =
          (PollOutcome.result
            { workflow_name := workflow_name
              run_number := run_number
              status := pyOrS s.status "unknown"
              workflow_type := WorkflowType.SESSION
              started_at := started_at
              completed_at := some step.now2
              duration_seconds := some (step.now2 - started_at)
              run_info := none
              session_url := pyOr s.external_href (pyOr s.url redirect_url) },
           if on_status ∧ some (pyOrS s.status "unknown") ≠ last_status then
             [(session_cb_run_info workflow_name run_number started_at s,
               step.now - started_at)]
           else [])) := by
  constructor
  · intro env interval last_status r notifs h
    have htype := spoll_result_type ex workflow_name run_number started_at
      session_name redirect_url on_status hget env interval last_status r notifs h
    simp [ExecutionResult.success, htype]
  · intro step rest interval last_status s hs ht hready
    have hfail : SESSION_TERMINAL_STATUSES.contains
        (py_lower (pyOrS s.status "unknown")) = false := by
      cases hc : SESSION_TERMINAL_STATUSES.contains (py_lower (pyOrS s.status "unknown"))
      · rfl
      · exact absurd hready (session_terminal_ne_running _ hc)
    exact spoll_step_ready ex workflow_name run_number started_at session_name
      redirect_url on_status hget step rest interval last_status s hs ht hfail hready

/-- C6 witness: the ready equation and the success characterisation
evaluated on the concrete running session `c6_session`. -/
theorem C6_witness :
    poll_session_ready default_executor "wf" 7 0 none (some "https://redirect/x")
        true no_http [c6_step] 5 none =
      (PollOutcome.result
        { c6_result with
          session_url := pyOr c6_session.external_href
            (pyOr c6_session.url (some "https://redirect/x")) },
       [(session_cb_run_info "wf" 7 0 c6_session, 3 - 0)]) ∧
      (c6_result.success = true ↔ py_lower c6_result.status = "running") := by
  obtain ⟨h1, h2⟩ := C6_session_ready_url default_executor "wf" 7 0 none
    (some "https://redirect/x") true no_http
  have heq := h2 c6_step [] 5 none c6_session (by decide)
    (by norm_num [c6_step, default_executor]) (by decide)
  exact ⟨heq, h1 [c6_step] 5 none
    { c6_result with
      session_url := pyOr c6_session.external_href
        (pyOr c6_session.url (some "https://redirect/x")) }
    [(session_cb_run_info "wf" 7 0 c6_session, 3 - 0)] heq⟩

/-- C7: while no session matches the run, a within-timeout session poll
iteration treats the implicit status as `"starting"`: it notifies the
caller with a `"starting"` record exactly when the previous observed
status was not already `"starting"` (so consecutive session-less
iterations notify at most once, since the recursion continues with
`last_status = "starting"`), and the iteration's outcome is that of the
continued loop — it keeps polling rather than returning. -/
theorem C7_starting_notification (ex : WorkflowExecutor) (workflow_name : String)
    (run_number : Int) (started_at : ℚ) (session_name redirect_url : Option String)
    (hget : String → Option Nat) (step : SessionPollStep)
    (rest : List SessionPollStep) (interval : ℚ) (last_status : Option String)
    (hs : get_session_for_run step.sessions workflow_name run_number = none)
    (ht : ¬ step.now - started_at > ex.timeout) :
    poll_session_ready ex workflow_name run_number started_at session_name
        redirect_url true hget (step :: rest) interval last_status =
      ((poll_session_ready ex workflow_name run_number started_at session_name
          redirect_url true hget rest (next_interval ex interval)
          (some "starting")).1,
       (if last_status ≠ some "starting" then
          [(starting_run_info workflow_name run_number started_at,
            step.now - started_at)]
        else []) ++
         (poll_session_ready ex workflow_name run_number started_at session_name
           redirect_url true hget rest (next_interval ex interval)
           (some "starting")).2) := by
  rw [spoll_step_no_session ex workflow_name run_number started_at session_name
    redirect_url true hget step rest interval last_status hs ht]
  by_cases hls : last_status = some "starting"
  · simp [hls]
  · simp [hls]

/-- C7 witness: a first session-less iteration with no previous status
notifies `"starting"` and continues polling. -/
theorem C7_witness :
    poll_session_ready default_executor "wf" 7 0 none none true no_http
        [{ now := 1, sessions := [], now2 := 1, rand := 0 }] 5 none =
      ((poll_session_ready default_executor "wf" 7 0 none none true no_http
          [] (next_interval default_executor 5) (some "starting")).1,
       (if (none : Option String) ≠ some "starting" then
          [(starting_run_info "wf" 7 0, 1 - 0)]
        else []) ++
         (poll_session_ready default_executor "wf" 7 0 none none true no_http
           [] (next_interval default_executor 5) (some "starting")).2) :=
  C7_starting_notification default_executor "wf" 7 0 none none no_http
    { now := 1, sessions := [], now2 := 1, rand := 0 } [] 5 none (by decide)
    (by norm_num [default_executor])

/-- C10: success of a session result is determined solely by the status
case-folding to `"running"`: the poller's behaviour is identical under any
two HTTP environments (the URL-reachability check `_validate_session_url`
is never consulted on the polling path), every returned result satisfies
`success = (py_lower status == "running")`, and a concrete run whose
session exposes no URL at all still returns `session_url = none` with
`success = true`. -/
theorem C10_success_status_only (ex : WorkflowExecutor) (workflow_name : String)
    (run_number : Int) (started_at : ℚ) (session_name redirect_url : Option String)
    (on_status : Bool) :
    (∀ (hget hget' : String → Option Nat) (env : List SessionPollStep)
        (interval : ℚ) (last_status : Option String),
        poll_session_ready ex workflow_name run_number started_at session_name
            redirect_url on_status hget env interval last_status =
          poll_session_ready ex workflow_name run_number started_at session_name
            redirect_url on_status hget' env interval last_status) ∧
    (∀ (hget : String → Option Nat) (env : List SessionPollStep) (interval : ℚ)
        (last_status : Option String) (r : ExecutionResult)
        (notifs : List (RunInfo × ℚ)),
        poll_session_ready ex workflow_name run_number started_at session_name
            redirect_url on_status hget env interval last_status =
          (PollOutcome.result r, notifs) →
        r.success = (py_lower r.status == "running")) ∧
    ((poll_session_ready default_executor "wf" 7 0 none none false no_http
          [c10_step] 5 none).1 = PollOutcome.result c10_result ∧
      c10_result.session_url = none ∧ c10_result.success = true) := by
  refine ⟨spoll_hget_independent ex workflow_name run_number started_at
    session_name redirect_url on_status, ?_, ?_, rfl, by decide⟩
  · intro hget env interval last_status r notifs h
    have htype := spoll_result_type ex workflow_name run_number started_at
      session_name redirect_url on_status hget env interval last_status r notifs h
    simp [ExecutionResult.success, htype]
  · rw [spoll_step_ready default_executor "wf" 7 0 none none false no_http
      c10_step [] 5 none c10_session (by decide)
      (by norm_num [c10_step, default_executor]) (by decide) (by decide)]
    rfl

/-- C10 witness: HTTP-environment independence and the success
characterisation evaluated on the concrete URL-less running session. -/
theorem C10_witness :
    poll_session_ready default_executor "wf" 7 0 none none false
        (fun _ => some 200) [c10_step] 5 none =
      poll_session_ready default_executor "wf" 7 0 none none false no_http
        [c10_step] 5 none ∧
      c10_result.success = (py_lower c10_result.status == "running") := by
  obtain ⟨ha, hb, -⟩ := C10_success_status_only default_executor "wf" 7 0 none none false
  refine ⟨ha (fun _ => some 200) no_http [c10_step] 5 none, ?_⟩
  have heq := spoll_step_ready default_executor "wf" 7 0 none none false no_http
    c10_step [] 5 none c10_session (by decide)
    (by norm_num [c10_step, default_executor]) (by decide) (by decide)
  exact hb no_http [c10_step] 5 none c10_result
    (if (false : Bool) ∧ some (pyOrS c10_session.status "unknown") ≠ none then
      [(session_cb_run_info "wf" 7 0 c10_session, 2 - 0)]
     else []) heq

/-- Master equation for `cleanup`: it always returns normally, the signal
trace and cancel effects being functions of the process state and the
Python-truthiness guard. -/
theorem cleanup_eq (cw : Bool) (p : TunnelProc) (hc : Bool)
    (wn : Option String) (rn : Option Int) (cf : Bool) :
    cleanup cw p hc wn rn cf = Except.ok
      { signals :=
          (if p.alive then [Sig.sigterm] else []) ++
            (if (p.alive &&
                  match p.term_exit_delay with
                  | some d => decide (tunnel_wait_grace < d)
                  | none => true) = true then [Sig.sigkill] else []),
        cancel_calls :=
          if (cw && hc && py_truthy_str wn && py_truthy_int rn) = true then 1 else 0,
        cancel_error_reported :=
          if (cw && hc && py_truthy_str wn && py_truthy_int rn) = true then cf
          else false } := by
  rcases p with ⟨alive, delay⟩
  cases alive <;>
    by_cases hg : (cw && hc && py_truthy_str wn && py_truthy_int rn) = true <;>
      simp [cleanup, os_killpg, hg]

/-- C8: tunnel termination is idempotent and escalates only after the
grace period — `cleanup` always returns normally (every process-not-found
error is swallowed); on an already-exited process group it delivers no
signal at all (so a second invocation after a completed teardown is a
no-op); and a `SIGKILL` is delivered only when the group was alive,
received the graceful `SIGTERM` first, and failed to exit within the 5
second `wait` grace period. -/
theorem C8_cleanup_idempotent (cw : Bool) (p : TunnelProc) (hc : Bool)
    (wn : Option String) (rn : Option Int) (cf : Bool) :
    ∃ res : CleanupResult,
      cleanup cw p hc wn rn cf = Except.ok res ∧
      (p.alive = false → res.signals = []) ∧
      (res.signals.contains Sig.sigkill = true →
        p.alive = true ∧
        res.signals = [Sig.sigterm, Sig.sigkill] ∧
        (p.term_exit_delay = none ∨
          ∃ d, p.term_exit_delay = some d ∧ tunnel_wait_grace < d)) := by
  refine ⟨_, cleanup_eq cw p hc wn rn cf, ?_, ?_⟩
  · intro hdead
    simp [hdead]
  · intro hkill
    by_cases ha : p.alive = true
    · cases hb : (match p.term_exit_delay with
        | some d => decide (tunnel_wait_grace < d)
        | none => true) with
      | false =>
        rw [ha, hb] at hkill
        simp at hkill
      | true =>
        refine ⟨ha, by simp [ha, hb], ?_⟩
        cases hd : p.term_exit_delay with
        | none => exact Or.inl rfl
        | some d =>
          rw [hd] at hb
          exact Or.inr ⟨d, rfl, of_decide_eq_true hb⟩
    · rw [Bool.not_eq_true] at ha
      rw [ha] at hkill
      simp at hkill

/-- C8 witness: cleaning up an already-exited process group returns
normally with no signal delivered. -/
theorem C8_witness :
    ∃ res : CleanupResult,
      cleanup true { alive := false, term_exit_delay := none } true
          (some "wf") (some 7) false = Except.ok res ∧
      (({ alive := false, term_exit_delay := none } : TunnelProc).alive = false →
        res.signals = []) ∧
      (res.signals.contains Sig.sigkill = true →
        ({ alive := false, term_exit_delay := none } : TunnelProc).alive = true ∧
        res.signals = [Sig.sigterm, Sig.sigkill] ∧
        (({ alive := false, term_exit_delay := none } : TunnelProc).term_exit_delay
            = none ∨
          ∃ d, ({ alive := false, term_exit_delay := none } : TunnelProc).term_exit_delay
              = some d ∧ tunnel_wait_grace < d)) :=
  C8_cleanup_idempotent true { alive := false, term_exit_delay := none } true
    (some "wf") (some 7) false

/-- The auto-cancel wait loop stops no later than the deadline, and if it
stops strictly earlier it is because the tunnel process was observed
exited at that second. -/
theorem auto_cancel_loop_le (exited : Nat → Bool) :
    ∀ (remaining t : Nat),
      auto_cancel_loop exited t remaining ≤ t + remaining ∧
        (auto_cancel_loop exited t remaining < t + remaining →
          exited (auto_cancel_loop exited t remaining) = true) := by
  intro remaining
  induction remaining with
  | zero =>
    intro t
    simp [auto_cancel_loop]
  | succ r ih =>
    intro t
    simp only [auto_cancel_loop]
    by_cases he : exited t = true
    · rw [if_pos he]
      exact ⟨by omega, fun _ => he⟩
    · rw [if_neg he]
      obtain ⟨ih1, ih2⟩ := ih (t + 1)
      refine ⟨by omega, fun hlt => ih2 (by omega)⟩

/-- C9: with an auto-cancel deadline configured (and a client, workflow
name and run number present under Python truthiness), the coordinator's
wait loop re-checks once per second and stops by the deadline — strictly
earlier only when the tunnel process was observed dead — and the single
`cleanup(cancel_workflow=True)` call that follows invokes the remote
cancel exactly once, whatever the exit reason; a failing cancel call is
reported, and the whole sequence still returns normally rather than
propagating the failure. -/
theorem C9_auto_cancel_once (cancel_after : Nat) (exited : Nat → Bool)
    (p : TunnelProc) (hc : Bool) (wn : Option String) (rn : Option Int)
    (cf : Bool) (hhc : hc = true) (hwn : py_truthy_str wn = true)
    (hrn : py_truthy_int rn = true) :
    ∃ res : CleanupResult,
      (run_tunnel_auto_cancel cancel_after exited p hc wn rn cf).2 =
          Except.ok res ∧
        res.cancel_calls = 1 ∧
        res.cancel_error_reported = cf ∧
        (run_tunnel_auto_cancel cancel_after exited p hc wn rn cf).1 ≤
          cancel_after ∧
        ((run_tunnel_auto_cancel cancel_after exited p hc wn rn cf).1 <
            cancel_after →
          exited ((run_tunnel_auto_cancel cancel_after exited p hc wn rn cf).1) =
            true) := by
  refine ⟨_, cleanup_eq true p hc wn rn cf, ?_, ?_, ?_, ?_⟩
  · simp [hhc, hwn, hrn]
  · simp [hhc, hwn, hrn]
  · simpa using (auto_cancel_loop_le exited cancel_after 0).1
  · intro hlt
    exact (auto_cancel_loop_le exited cancel_after 0).2 (by simpa using hlt)

/-- C9 witness: deadline 3, tunnel observed dead from second 1 on, failing
cancel call — cancel is still invoked exactly once, its failure reported,
and the wait stopped at an exit-observing second within the deadline. -/
theorem C9_witness :
    ∃ res : CleanupResult,
      (run_tunnel_auto_cancel 3 (fun t => decide (1 ≤ t))
            { alive := true, term_exit_delay := some 1 } true (some "wf")
            (some 7) true).2 = Except.ok res ∧
        res.cancel_calls = 1 ∧
        res.cancel_error_reported = true ∧
        (run_tunnel_auto_cancel 3 (fun t => decide (1 ≤ t))
            { alive := true, term_exit_delay := some 1 } true (some "wf")
            (some 7) true).1 ≤ 3 ∧
        ((run_tunnel_auto_cancel 3 (fun t => decide (1 ≤ t))
              { alive := true, term_exit_delay := some 1 } true (some "wf")
              (some 7) true).1 < 3 →
          (fun t => decide (1 ≤ t))
              ((run_tunnel_auto_cancel 3 (fun t => decide (1 ≤ t))
                { alive := true, term_exit_delay := some 1 } true (some "wf")
                (some 7) true).1) = true) :=
  C9_auto_cancel_once 3 (fun t => decide (1 ≤ t))
    { alive := true, term_exit_delay := some 1 } true (some "wf") (some 7) true
    rfl (by decide) (by decide)
